import Mathlib

/-!
Verification development for the download coordination subsystem of the
anime_pic_download_tool repository. The definitions below are shallow
embeddings of the Python source, chiefly `src/utils.py` (classes
`RateLimiter`, `DownloadDataEntry`, `Downloader`), `src/parser/base.py`
(`DownloadEntry`), and `src/config.py`. Python strings are modelled as
`List Char` where the claims need induction over their characters, and as
`String` where they serve only as map keys (tags). The `dict` instances of
the source are modelled as functions into `Option`, which mirrors the
one-value-per-key semantics of a Python dict.
-/

namespace Anime

/-- A batch tag (`tag: str` in `src/utils.py`); an arbitrary caller-chosen
string, typically the source post URL. -/
abbrev Tag := String

/-- The `Downloader.tag_counter_dict` of `src/utils.py`: a dict mapping a
tag to a `(completed, total)` pair. A Python dict holds at most one value
per key, so it is modelled as a function into `Option`. -/
abbrev Tracker := Tag → Option (Nat × Nat)

/-- The empty dict `{}` initialising `tag_counter_dict` at line 87. -/
def Tracker.empty : Tracker := fun _ => none

/-- Dict assignment `self.tag_counter_dict[tag] = v`. -/
def Tracker.set (tr : Tracker) (tag : Tag) (v : Nat × Nat) : Tracker :=
  fun t => if t = tag then some v else tr t

/-- Dict deletion `del self.tag_counter_dict[tag]`. -/
def Tracker.erase (tr : Tracker) (tag : Tag) : Tracker :=
  fun t => if t = tag then none else tr t

/-- The filesystem visible to the downloader, restricted to the one query
the code makes (line 122 of `src/utils.py`):
`os.path.exists(p) and os.path.getsize(p) > 0`. `disk p = true` means the
path `p` exists on disk with a non-empty content. -/
abbrev Disk := List Char → Bool

/-- Writing the fetched body to `file_path` (lines 144-145 of
`src/utils.py`) makes that path exist non-empty. -/
def Disk.write (disk : Disk) (p : List Char) : Disk :=
  fun q => if q = p then true else disk q

/-- `DOWNLOAD_THREAD_NUM` from `src/config.py` line 6. -/
def DOWNLOAD_THREAD_NUM : Nat := 8

/-- The `DownloadDataEntry` value object of `src/utils.py` lines 69-81:
a remote url and a destination file path, both Python strings. -/
structure DownloadDataEntry where
  url : List Char
  file_path : List Char
deriving Repr, DecidableEq

/-- The tail component `url.rsplit("/", 1)[-1]` used at line 76 of
`src/utils.py`: everything after the last '/' of the string, the whole
string when it has no '/'. Splitting once from the right and keeping the
last piece is exactly taking the longest suffix free of the separator. -/
def rsplitTail (url : List Char) : List Char :=
  (url.reverse.takeWhile (fun c => c ≠ '/')).reverse

/-- `DownloadDataEntry.__init__` (lines 73-78 of `src/utils.py`): stores
`url` unchanged; stores `file_path` unchanged when supplied, and
`url.rsplit("/", 1)[-1]` when `file_path is None`. -/
def DownloadDataEntry.init (url : List Char) (file_path : Option (List Char)) :
    DownloadDataEntry :=
  match file_path with
  | none => ⟨url, rsplitTail url⟩
  | some f => ⟨url, f⟩

/-- Outcome of one run of the per-entry worker `Downloader.download_pic`.
`done` is a normal return; `keyError` is an uncaught `KeyError` raised by a
`self.tag_counter_dict[tag]` lookup on an absent key; `fetchError` is the
`Exception` raised at lines 137-139 on a non-200 response. -/
inductive Outcome where
  | done
  | keyError
  | fetchError
deriving Repr, DecidableEq

/-- Result of one run of `Downloader.download_pic`: the tracker and disk
after the run, the outcome, and the instrumentation the claims speak
about: how many network fetches were issued (`session.get` at line 135),
how many rate-limiter tokens were acquired (line 132) and how many were
released (line 142, inside `finally`). -/
structure DownloadResult where
  tracker : Tracker
  disk : Disk
  outcome : Outcome
  fetches : Nat
  acquired : Nat
  released : Nat

/-- Shallow embedding of `Downloader.download_pic` (`src/utils.py` lines
120-154). `fetchOk url = true` models a 200 response for `url`.
Exists-path (lines 122-129): when `file_path` exists non-empty, increment
the tag counter (lines 123-124), delete the entry when completed equals
total (lines 125-126), then the status print at lines 127-128 performs a
fresh `self.tag_counter_dict[tag]` lookup, which raises `KeyError` when
the entry was just deleted. Fetch path (lines 131-154): acquire a token,
issue the fetch, release the token in the `finally` block on every exit,
raise on a non-200 status; on success write the body to disk and update
the counter from a value saved before the update (lines 147-152), so the
closing print at lines 153-154 cannot raise. -/
def download_pic (disk : Disk) (fetchOk : List Char → Bool) (tr : Tracker)
    (e : DownloadDataEntry) (tag : Tag) : DownloadResult :=
  if disk e.file_path then
    match tr tag with
    | none => ⟨tr, disk, .keyError, 0, 0, 0⟩
    | some (c, t) =>
      let tr1 := tr.set tag (c + 1, t)
      let tr2 := if c + 1 = t then tr1.erase tag else tr1
      match tr2 tag with
      | none => ⟨tr2, disk, .keyError, 0, 0, 0⟩
      | some _ => ⟨tr2, disk, .done, 0, 0, 0⟩
  else
    if fetchOk e.url then
      match tr tag with
      | none => ⟨tr, disk.write e.file_path, .keyError, 1, 1, 1⟩
      | some (c, t) =>
        let tr2 := if c + 1 = t then tr.erase tag else tr.set tag (c + 1, t)
        ⟨tr2, disk.write e.file_path, .done, 1, 1, 1⟩
    else
      ⟨tr, disk, .fetchError, 1, 1, 1⟩

/-- State of one `Downloader.submit_download_requests` coroutine
(`src/utils.py` lines 97-118) as the cooperative scheduler sees it.
`started = false` means the coroutine is still inside the polling loop at
lines 103-104 (it has not yet created the tag counter); `started = true`
means the counter was created at line 105 and the coroutine is launching
the remaining `pending` entries in groups of `DOWNLOAD_THREAD_NUM`
(lines 111-118). -/
structure SubmitState where
  tag : Tag
  pending : List DownloadDataEntry
  started : Bool
deriving Repr

/-- One scheduler step of `submit_download_requests` between two
suspension points. While waiting (lines 103-104): if the tag still maps to
a counter the coroutine merely sleeps again, touching nothing; otherwise
the code from line 105 to the first `await sleep` at line 118 runs
atomically (no `await` in between): it creates the counter `(0, len)` and
launches the first group of `DOWNLOAD_THREAD_NUM` entries. Once started,
each step launches the next group (lines 111-118). The third component is
the list of entries handed to `download_pic` workers in this step. -/
def submitStep (tr : Tracker) (s : SubmitState) :
    Tracker × SubmitState × List DownloadDataEntry :=
  if s.started then
    (tr, { s with pending := s.pending.drop DOWNLOAD_THREAD_NUM },
      s.pending.take DOWNLOAD_THREAD_NUM)
  else
    match tr s.tag with
    | some _ => (tr, s, [])
    | none =>
      (tr.set s.tag (0, s.pending.length),
        { s with started := true, pending := s.pending.drop DOWNLOAD_THREAD_NUM },
        s.pending.take DOWNLOAD_THREAD_NUM)

/-- Run the `download_pic` workers of one batch one after the other,
accumulating the tracker and disk and the total number of network fetches
issued. A worker whose entry already exists on disk runs lines 122-129
with no `await` at all, so its effect on the shared state is atomic; any
cooperative schedule of such workers is therefore equal to some sequential
order, which this fold realises. -/
def runEntries (fetchOk : List Char → Bool) (disk : Disk) (tr : Tracker)
    (tag : Tag) : List DownloadDataEntry → Disk × Tracker × Nat
  | [] => (disk, tr, 0)
  | e :: es =>
    let r := download_pic disk fetchOk tr e tag
    let rest := runEntries fetchOk r.disk r.tracker tag es
    (rest.1, rest.2.1, r.fetches + rest.2.2)

/-- Modelled from the spec: `wait_for_tag_completion` (the spec name is
`wait_for_drain`) is awaited at `src/pixiv_parser.py` line 219 and
`src/parser/pixiv.py` line 289 on the `Downloader`, but no definition of
it appears under `src/`; only its callers do. Per the spec it
"cooperatively polls (fixed interval) until `is_open(tag)` is false",
where `is_open(tag)` is true iff a counter entry currently exists for the
tag. The argument `trace` is the sequence of tracker states the coroutine
observes at its successive polls; the result is the index of the poll at
which the loop exits (`none` when the batch never drains within the
trace). `some 0` means the very first poll already sees the tag closed
and the call returns immediately without sleeping. -/
def wait_for_drain (tag : Tag) : List Tracker → Option Nat
  | [] => none
  | tr :: rest =>
    if tr tag = none then some 0
    else (wait_for_drain tag rest).map (· + 1)

/-- The `DownloadEntry` dataclass of `src/parser/base.py` lines 36-48:
url, filename, optional per-entry headers, and an optional post-download
continuation `post_process` (typed `Any` in the source, an arbitrary
callable; modelled as an optional value of an arbitrary type `π`). -/
structure DownloadEntry (π : Type) where
  url : List Char
  filename : List Char
  headers : List (String × String)
  post_process : Option π

/-- The conversion every caller of the coordinator performs on a parsed
entry, e.g. `src/parser/gelbooru.py` line 114, `src/parser/danbooru.py`
line 105, `src/parser/yandere.py` line 104, `src/parser/twitter.py` line
184: `DownloadDataEntry(entry.url, entry.filename)`. It keeps only the
url and filename; the `headers` and `post_process` fields are dropped. -/
def toDownloadDataEntry {π : Type} (e : DownloadEntry π) : DownloadDataEntry :=
  ⟨e.url, e.filename⟩

/-- Helper for `urlparse(url).netloc`: scan for the first occurrence of
`"//"` and return what follows it, `none` when the string has no `"//"`.
For the absolute `http(s)://...` URLs this program handles, the authority
component starts right after that marker. -/
def afterDoubleSlash : List Char → Option (List Char)
  | [] => none
  | [_] => none
  | c1 :: c2 :: rest =>
    if c1 = '/' ∧ c2 = '/' then some rest else afterDoubleSlash (c2 :: rest)

/-- `RateLimiter._get_domain` (`src/utils.py` lines 21-24): returns
`urlparse(url).netloc`. For an absolute URL the netloc is the authority
substring between the `"//"` marker and the next `'/'`, `'?'` or `'#'`
(or the end of the string); the scheme is not part of it. -/
def RateLimiter._get_domain (url : List Char) : List Char :=
  match afterDoubleSlash url with
  | none => []
  | some rest => rest.takeWhile (fun c => c ≠ '/' ∧ c ≠ '?' ∧ c ≠ '#')

/-- An absolute URL `scheme://host/path` assembled from its components,
used to state which URLs share a rate-limit key. -/
def absUrl (scheme host path : List Char) : List Char :=
  scheme ++ ':' :: '/' :: '/' :: (host ++ '/' :: path)

/-- The spacing decision of `RateLimiter.acquire` (`src/utils.py` lines
44-51), in tenths of a second: with `last` the stored
`domain_last_request[domain]` value read at line 45 and `readTime` the
`time.time()` read at line 44, the admission happens immediately at
`readTime` when `readTime - last >= min_interval`, and otherwise after an
`asyncio.sleep(min_interval - (readTime - last))`, i.e. at
`readTime + (min_interval - (readTime - last))`; the woken coroutine then
stores the new time as the last request time (line 51). -/
def admitTime (min_interval last readTime : Nat) : Nat :=
  if readTime - last < min_interval then
    readTime + (min_interval - (readTime - last))
  else readTime

/-- Where one `acquire` coroutine stands, for a fixed domain, once its
`await semaphore.acquire()` (line 41) has returned. `beforeRead` means it
is about to run the straight-line segment lines 44-49 up to the possible
`asyncio.sleep`; `sleeping wake` means it is suspended in the
`asyncio.sleep` at line 49 and will resume at time `wake`; `admitted t`
means it has stored the new last-request time and returned at time `t`. -/
inductive AcqPhase where
  | beforeRead
  | sleeping (wake : Nat)
  | admitted (t : Nat)
deriving Repr, DecidableEq

/-- Shared rate-limiter state for one domain with two `acquire` coroutines
in flight (the domain concurrency bound from `RATE_LIMITS` is at least 2
for every configured domain, e.g. `i.pximg.net` allows 5, so two
coroutines can hold semaphore slots simultaneously). `last` is
`domain_last_request[domain]`, initialised to 0 at line 32. -/
structure LimiterState where
  last : Nat
  a : AcqPhase
  b : AcqPhase
deriving Repr, DecidableEq

/-- Which of the two in-flight coroutines a scheduler event drives. -/
inductive Coro where
  | A
  | B
deriving Repr, DecidableEq

/-- Advance one coroutine of the pair at the given current time,
following `RateLimiter.acquire` lines 44-51. A `beforeRead` coroutine
runs the segment from the `time.time()` read to the first suspension
point: it reads the shared `last` value and either admits immediately
(updating `last`, line 51) or suspends in `asyncio.sleep` until
`admitTime`. A `sleeping` coroutine whose wake time has arrived resumes
after the sleep and only then stores the current time as `last` (line 51)
and is admitted. Events that are not enabled leave the state unchanged. -/
def acqStep (min_interval : Nat) (st : LimiterState) (now : Nat) (who : Coro) :
    LimiterState :=
  let phase := match who with | .A => st.a | .B => st.b
  let upd := fun (st2 : LimiterState) (p : AcqPhase) =>
    match who with
    | .A => { st2 with a := p }
    | .B => { st2 with b := p }
  match phase with
  | .beforeRead =>
    if now - st.last < min_interval then
      upd st (.sleeping (admitTime min_interval st.last now))
    else
      upd { st with last := now } (.admitted now)
  | .sleeping wake =>
    if wake ≤ now then upd { st with last := now } (.admitted now)
    else st
  | .admitted _ => st

/-- Run a schedule, a list of (time, coroutine) events, through
`acqStep`. -/
def runSchedule (min_interval : Nat) (st : LimiterState) :
    List (Nat × Coro) → LimiterState
  | [] => st
  | (now, who) :: evs => runSchedule min_interval (acqStep min_interval st now who) evs

/-- The tracker after a `download_pic` run that marked one entry done,
starting from a counter `(c, t)` at `tag`: the properties claim C3 states
of each increment site. -/
def markFacts (tr tr2 : Tracker) (tag : Tag) (c t : Nat) : Prop :=
  (tr2 tag = none ↔ c + 1 = t) ∧
  (c + 1 ≠ t → tr2 tag = some (c + 1, t)) ∧
  (∀ tg, tg ≠ tag → tr2 tg = tr tg) ∧
  (c < t → ∀ v, tr2 tag = some v → v.1 ≤ v.2)

theorem Tracker.set_self (tr : Tracker) (tag : Tag) (v : Nat × Nat) :
    (tr.set tag v) tag = some v := by
  simp [Tracker.set]

theorem Tracker.set_other (tr : Tracker) (tag tg : Tag) (v : Nat × Nat)
    (h : tg ≠ tag) : (tr.set tag v) tg = tr tg := by
  simp [Tracker.set, h]

theorem Tracker.erase_self (tr : Tracker) (tag : Tag) :
    (tr.erase tag) tag = none := by
  simp [Tracker.erase]

theorem Tracker.erase_other (tr : Tracker) (tag tg : Tag) (h : tg ≠ tag) :
    (tr.erase tag) tg = tr tg := by
  simp [Tracker.erase, h]

/-- C2: Tag mutual exclusion. The tracker dict holds at most one counter
per tag by construction; moreover a `submit_download_requests` coroutine
that has not yet created its counter (it is inside the polling loop at
lines 103-104 of `src/utils.py`) takes no action at all while the tag is
still mapped — it neither creates a counter nor launches any entry — and
the single atomic step that creates the counter `(0, len(entries))` and
launches the first group happens only from a state in which the prior
batch under the tag has fully drained (its tracker entry is absent). -/
theorem c2_tag_mutual_exclusion (tr : Tracker) (s : SubmitState)
    (h : s.started = false) :
    (∀ v, tr s.tag = some v → submitStep tr s = (tr, s, [])) ∧
    (tr s.tag = none →
      (submitStep tr s).1 s.tag = some (0, s.pending.length) ∧
      (submitStep tr s).2.1.started = true ∧
      (submitStep tr s).2.2 = s.pending.take DOWNLOAD_THREAD_NUM) := by
  constructor
  · intro v hv
    simp [submitStep, h, hv]
  · intro hnone
    simp [submitStep, h, hnone, Tracker.set]

theorem c2_tag_mutual_exclusion_witness :
    (submitStep Tracker.empty ⟨"t", [], false⟩).1 "t" = some (0, 0) ∧
    (submitStep Tracker.empty ⟨"t", [], false⟩).2.1.started = true ∧
    (submitStep Tracker.empty ⟨"t", [], false⟩).2.2 = [] := by
  have h := (c2_tag_mutual_exclusion Tracker.empty ⟨"t", [], false⟩ rfl).2 rfl
  exact ⟨h.1, h.2.1, h.2.2⟩

/-- C3: Batch-counter invariant. From a counter `(c, t)` at `tag`, each of
the two increment sites of `download_pic` — the skip-because-exists path
(lines 122-129) and the fetch-success path (lines 147-152) — leaves a
tracker in which the tag was removed exactly when the new completed count
`c + 1` equals `t`, otherwise maps the tag to `(c + 1, t)`, leaves every
other tag unchanged, and (when the counter was not already full, `c < t`)
keeps the invariant `0 ≤ completed ≤ total` — the lower bound holding
trivially in `Nat`. -/
theorem c3_batch_counter_invariant (disk : Disk) (fetchOk : List Char → Bool)
    (tr : Tracker) (e : DownloadDataEntry) (tag : Tag) (c t : Nat)
    (h : tr tag = some (c, t)) :
    (disk e.file_path = true →
      markFacts tr (download_pic disk fetchOk tr e tag).tracker tag c t) ∧
    (disk e.file_path = false → fetchOk e.url = true →
      markFacts tr (download_pic disk fetchOk tr e tag).tracker tag c t) := by
  have facts : ∀ tr2 : Tracker,
      (tr2 tag = if c + 1 = t then none else some (c + 1, t)) →
      (∀ tg, tg ≠ tag → tr2 tg = tr tg) →
      markFacts tr tr2 tag c t := by
    intro tr2 htag hoth
    by_cases hct : c + 1 = t
    · rw [if_pos hct] at htag
      exact ⟨by simp [htag, hct], fun hne => absurd hct hne, hoth,
        fun _ v hv => by rw [htag] at hv; exact absurd hv (by simp)⟩
    · rw [if_neg hct] at htag
      refine ⟨by simp [htag, hct], fun _ => htag, hoth, fun hlt v hv => ?_⟩
      rw [htag] at hv
      cases hv
      exact hlt
  constructor
  · intro hd
    have htr : (download_pic disk fetchOk tr e tag).tracker =
        (if c + 1 = t then (tr.set tag (c + 1, t)).erase tag
          else tr.set tag (c + 1, t)) := by
      by_cases hct : c + 1 = t <;>
        simp [download_pic, hd, h, hct, Tracker.erase_self, Tracker.set_self]
    rw [htr]
    refine facts _ ?_ ?_
    · by_cases hct : c + 1 = t <;>
        simp [hct, Tracker.erase_self, Tracker.set_self]
    · intro tg hne
      by_cases hct : c + 1 = t <;>
        simp [hct, Tracker.erase_other _ _ _ hne, Tracker.set_other _ _ _ _ hne]
  · intro hd hf
    have htr : (download_pic disk fetchOk tr e tag).tracker =
        (if c + 1 = t then tr.erase tag else tr.set tag (c + 1, t)) := by
      simp [download_pic, hd, hf, h]
    rw [htr]
    refine facts _ ?_ ?_
    · by_cases hct : c + 1 = t <;>
        simp [hct, Tracker.erase_self, Tracker.set_self]
    · intro tg hne
      by_cases hct : c + 1 = t <;>
        simp [hct, Tracker.erase_other _ _ _ hne, Tracker.set_other _ _ _ _ hne]

theorem c3_batch_counter_invariant_witness :
    markFacts (Tracker.empty.set "t" (0, 2))
      (download_pic (fun q => q = "p".data) (fun _ => true)
        (Tracker.empty.set "t" (0, 2)) ⟨"u".data, "p".data⟩ "t").tracker
      "t" 0 2 := by
  exact (c3_batch_counter_invariant (fun q => q = "p".data) (fun _ => true)
    (Tracker.empty.set "t" (0, 2)) ⟨"u".data, "p".data⟩ "t" 0 2
    (by decide)).1 (by decide)

/-- C4: On a non-2xx fetch the per-entry worker raises (lines 136-139 of
`src/utils.py`), the `finally` block still releases the rate-limiter
token it acquired (one acquire, one release), the failure propagates as
the worker outcome, the tracker is left untouched — no completed count is
incremented, so any counter open for the tag stays open — and nothing is
written to disk. -/
theorem c4_fetch_failure_releases_token (disk : Disk)
    (fetchOk : List Char → Bool) (tr : Tracker) (e : DownloadDataEntry)
    (tag : Tag) (hd : disk e.file_path = false) (hf : fetchOk e.url = false) :
    (download_pic disk fetchOk tr e tag).outcome = .fetchError ∧
    (download_pic disk fetchOk tr e tag).acquired = 1 ∧
    (download_pic disk fetchOk tr e tag).released = 1 ∧
    (download_pic disk fetchOk tr e tag).tracker = tr ∧
    (download_pic disk fetchOk tr e tag).disk = disk ∧
    (∀ v, tr tag = some v → (download_pic disk fetchOk tr e tag).tracker tag = some v) := by
  refine ⟨?_, ?_, ?_, ?_, ?_, ?_⟩ <;>
    simp [download_pic, hd, hf]

theorem c4_fetch_failure_releases_token_witness :
    (download_pic (fun _ => false) (fun _ => false)
      (Tracker.empty.set "t" (0, 1)) ⟨"u".data, "p".data⟩ "t").outcome = .fetchError ∧
    (download_pic (fun _ => false) (fun _ => false)
      (Tracker.empty.set "t" (0, 1)) ⟨"u".data, "p".data⟩ "t").released = 1 ∧
    (download_pic (fun _ => false) (fun _ => false)
      (Tracker.empty.set "t" (0, 1)) ⟨"u".data, "p".data⟩ "t").tracker "t" = some (0, 1) := by
  have h := c4_fetch_failure_releases_token (fun _ => false) (fun _ => false)
    (Tracker.empty.set "t" (0, 1)) ⟨"u".data, "p".data⟩ "t" rfl rfl
  exact ⟨h.1, h.2.2.1, h.2.2.2.2.2 (0, 1) (by decide)⟩

/-- C5: the claim is right and the code is wrong. When the destination
file of the LAST outstanding entry of a batch already exists non-empty,
`download_pic` increments the counter and deletes the tag entry (lines
123-126 of `src/utils.py`), and then the status print at lines 127-128
evaluates `self.tag_counter_dict[tag]` again and raises `KeyError`: the
worker ends in an error instead of reaching Done, contradicting the
state machine of the spec, in which `Errored` is reachable only from
the fetch or write phases. When the entry is not the last one (here total
2), the same path does reach Done normally. -/
theorem c5_exists_last_entry_keyerror :
    (download_pic (fun q => q = "p".data) (fun _ => false)
      (Tracker.empty.set "t" (0, 1)) ⟨"u".data, "p".data⟩ "t").outcome = .keyError ∧
    (download_pic (fun q => q = "p".data) (fun _ => false)
      (Tracker.empty.set "t" (0, 1)) ⟨"u".data, "p".data⟩ "t").tracker "t" = none ∧
    (download_pic (fun q => q = "p".data) (fun _ => false)
      (Tracker.empty.set "t" (0, 1)) ⟨"u".data, "p".data⟩ "t").fetches = 0 ∧
    (download_pic (fun q => q = "p".data) (fun _ => false)
      (Tracker.empty.set "t" (0, 2)) ⟨"u".data, "p".data⟩ "t").outcome = .done := by
  decide

theorem runEntries_all_on_disk (fetchOk : List Char → Bool) (tag : Tag)
    (entries : List DownloadDataEntry) :
    ∀ (tr : Tracker) (disk : Disk) (c : Nat),
      (∀ e ∈ entries, disk e.file_path = true) →
      tr tag = some (c, c + entries.length) →
      entries ≠ [] →
      (runEntries fetchOk disk tr tag entries).1 = disk ∧
      (runEntries fetchOk disk tr tag entries).2.1 tag = none ∧
      (runEntries fetchOk disk tr tag entries).2.2 = 0 := by
  induction entries with
  | nil => intro tr disk c _ _ hne; exact absurd rfl hne
  | cons e es ih =>
    intro tr disk c hdisk htr _
    have hd : disk e.file_path = true := hdisk e (List.mem_cons_self e es)
    cases es with
    | nil =>
      simp [runEntries, download_pic, hd, htr, Tracker.erase_self, Tracker.set_self]
    | cons e2 es2 =>
      have hct : ¬(c + 1 = c + (e :: e2 :: es2).length) := by
        simp only [List.length_cons]
        omega
      have hrun : download_pic disk fetchOk tr e tag =
          ⟨tr.set tag (c + 1, c + (e :: e2 :: es2).length), disk, .done, 0, 0, 0⟩ := by
        simp [download_pic, hd, htr, hct, Tracker.set_self]
      have hlen : c + (e :: e2 :: es2).length = (c + 1) + (e2 :: es2).length := by
        simp only [List.length_cons]
        omega
      have htr2 : (tr.set tag (c + 1, c + (e :: e2 :: es2).length)) tag
          = some (c + 1, (c + 1) + (e2 :: es2).length) := by
        rw [Tracker.set_self, hlen]
      have key := ih (tr.set tag (c + 1, c + (e :: e2 :: es2).length)) disk (c + 1)
        (fun e' he' => hdisk e' (List.mem_cons_of_mem _ he')) htr2 (by simp)
      have expand : runEntries fetchOk disk tr tag (e :: e2 :: es2) =
          ((runEntries fetchOk (download_pic disk fetchOk tr e tag).disk
              (download_pic disk fetchOk tr e tag).tracker tag (e2 :: es2)).1,
            (runEntries fetchOk (download_pic disk fetchOk tr e tag).disk
              (download_pic disk fetchOk tr e tag).tracker tag (e2 :: es2)).2.1,
            (download_pic disk fetchOk tr e tag).fetches +
              (runEntries fetchOk (download_pic disk fetchOk tr e tag).disk
                (download_pic disk fetchOk tr e tag).tracker tag (e2 :: es2)).2.2) := rfl
      rw [expand]
      simp only [hrun]
      exact ⟨key.1, key.2.1, by rw [key.2.2]⟩

/-- C6: Skip-if-exists idempotence. Re-submitting a non-empty batch whose
destination files are all on disk non-empty — as after a drained first
submission — issues zero network fetches, leaves the disk unchanged, and
still drains: starting from the counter `(0, len(entries))` that
`submit_download_requests` creates at line 105 of `src/utils.py`, running
all the per-entry workers removes the tracker entry for the tag again.
(Workers on the exists-path contain no `await`, so any cooperative
schedule of them equals a sequential order, which `runEntries` folds.) -/
theorem c6_skip_if_exists_idempotent (fetchOk : List Char → Bool)
    (disk : Disk) (tr : Tracker) (tag : Tag)
    (entries : List DownloadDataEntry) (hne : entries ≠ [])
    (hdisk : ∀ e ∈ entries, disk e.file_path = true) :
    (runEntries fetchOk disk (tr.set tag (0, entries.length)) tag entries).2.2 = 0 ∧
    (runEntries fetchOk disk (tr.set tag (0, entries.length)) tag entries).2.1 tag = none ∧
    (runEntries fetchOk disk (tr.set tag (0, entries.length)) tag entries).1 = disk := by
  have h := runEntries_all_on_disk fetchOk tag entries (tr.set tag (0, entries.length))
    disk 0 hdisk (by rw [Tracker.set_self]; simp) hne
  exact ⟨h.2.2, h.2.1, h.1⟩

theorem c6_skip_if_exists_idempotent_witness :
    (runEntries (fun _ => true) (fun q => q = "p".data)
      (Tracker.empty.set "t" (0, [(⟨"u".data, "p".data⟩ : DownloadDataEntry)].length))
      "t" [⟨"u".data, "p".data⟩]).2.2 = 0 ∧
    (runEntries (fun _ => true) (fun q => q = "p".data)
      (Tracker.empty.set "t" (0, [(⟨"u".data, "p".data⟩ : DownloadDataEntry)].length))
      "t" [⟨"u".data, "p".data⟩]).2.1 "t" = none := by
  have h := c6_skip_if_exists_idempotent (fun _ => true) (fun q => q = "p".data)
    Tracker.empty "t" [⟨"u".data, "p".data⟩] (by simp) (by decide)
  exact ⟨h.1, h.2.1⟩

/-- C1: The drain-wait operation (`wait_for_tag_completion` in the code,
`wait_for_drain` in the spec; modelled from the spec, its definition
being absent from `src/`). Over the sequence of tracker states observed
at its successive polls: when called before any begin/submit has ever
touched the tag the tracker is the empty dict, the first poll already
sees the tag closed, and the call returns immediately (index 0, no
sleep); and whenever the poll loop exits at index `i`, the state observed
there has no open batch under the tag while every earlier observed state
still had one — the call suspends exactly until no batch is open. -/
theorem c1_wait_for_drain (tag : Tag) (obs : List Tracker) :
    (obs.head? = some Tracker.empty → wait_for_drain tag obs = some 0) ∧
    (∀ i, wait_for_drain tag obs = some i →
      ∃ tr, obs[i]? = some tr ∧ tr tag = none ∧
        ∀ j, j < i → ∀ trj, obs[j]? = some trj → trj tag ≠ none) := by
  induction obs with
  | nil =>
    constructor
    · intro h; simp at h
    · intro i h; simp [wait_for_drain] at h
  | cons tr rest ih =>
    constructor
    · intro h
      have htr : tr = Tracker.empty := by simpa using h
      subst htr
      simp [wait_for_drain, Tracker.empty]
    · intro i h
      by_cases htag : tr tag = none
      · rw [wait_for_drain, if_pos htag] at h
        cases h
        exact ⟨tr, by simp, htag, fun j hj => absurd hj (by omega)⟩
      · rw [wait_for_drain, if_neg htag] at h
        cases hrest : wait_for_drain tag rest with
        | none => rw [hrest] at h; simp at h
        | some i0 =>
          rw [hrest] at h
          simp at h
          obtain ⟨tr0, hget, hnone, hbefore⟩ := ih.2 i0 hrest
          subst h
          refine ⟨tr0, by simpa using hget, hnone, ?_⟩
          intro j hj trj hgetj
          cases j with
          | zero =>
            simp at hgetj
            subst hgetj
            exact htag
          | succ j0 =>
            have hj0 : j0 < i0 := by omega
            exact hbefore j0 hj0 trj (by simpa using hgetj)

theorem c1_wait_for_drain_witness :
    (∃ tr, [Tracker.empty.set "t" (0, 1), Tracker.empty][1]? = some tr ∧
      tr "t" = none ∧
      ∀ j, j < 1 →
        ∀ trj, [Tracker.empty.set "t" (0, 1), Tracker.empty][j]? = some trj →
          trj "t" ≠ none) ∧
    wait_for_drain "t" [Tracker.empty] = some 0 := by
  refine ⟨(c1_wait_for_drain "t" [Tracker.empty.set "t" (0, 1), Tracker.empty]).2 1
    (by decide), (c1_wait_for_drain "t" [Tracker.empty]).1 rfl⟩

/-- C7 counterexample: two CONCURRENT `acquire` coroutines for one domain
can be admitted closer than `min_interval`. With `min_interval = 3`
tenths of a second (the `(5, 0.3)` default, also the `i.pximg.net`
configuration, whose concurrency bound 5 lets both coroutines hold
semaphore slots at once) and `domain_last_request = 0`: coroutine A runs
the read segment at time 1 and suspends in `asyncio.sleep` until time 3;
coroutine B runs its read segment at time 2, still sees the stale
`domain_last_request = 0` because A only writes it after its sleep (line
51 of `src/utils.py`), and also suspends until time 3; both are admitted
at time 3, zero apart — less than the minimum interval, refuting the
claim that spacing holds even when acquires run concurrently. -/
theorem c7_concurrent_admissions_violate_spacing :
    runSchedule 3 ⟨0, .beforeRead, .beforeRead⟩ [(1, .A), (2, .B), (3, .A), (3, .B)]
      = ⟨3, .admitted 3, .admitted 3⟩ ∧ ¬(3 + 3 ≤ 3) := by
  decide

/-- C7 amended: rate-limiter spacing holds for SEQUENTIAL admissions.
When one `acquire` completes before the next begins, the next read of
`time.time()` happens no earlier than the previous admission (`last ≤
readTime`), and the spacing rule of lines 44-51 of `src/utils.py` admits
the next request no earlier than `min_interval` after the previous
admission: either it sleeps exactly up to `last + min_interval`, or the
interval had already elapsed. Under concurrent acquires within one
concurrency bound of one origin the guarantee fails (see the counterexample):
two coroutines may read the same stale last-admission time. -/
theorem c7_sequential_spacing (min_interval last readTime : Nat)
    (h : last ≤ readTime) :
    last + min_interval ≤ admitTime min_interval last readTime := by
  unfold admitTime
  split <;> omega

theorem c7_sequential_spacing_witness :
    3 + 3 ≤ admitTime 3 3 4 := by
  exact c7_sequential_spacing 3 3 4 (by decide)

/-- C8 counterexample: a `DownloadEntry` carrying a `post_process`
continuation is converted (e.g. `src/parser/gelbooru.py` line 114) to a
`DownloadDataEntry` holding only the url and filename — the converted
value is identical to the one obtained with no continuation at all — and
the per-entry worker `download_pic` then completes a genuine
fetch-and-write success on it without any continuation available to
invoke: `post_process` is not invoked exactly once on success; it is
never invoked. -/
theorem c8_post_process_dropped :
    toDownloadDataEntry (⟨"u".data, "f".data, [], some 0⟩ : DownloadEntry Nat)
      = toDownloadDataEntry (⟨"u".data, "f".data, [], none⟩ : DownloadEntry Nat) ∧
    (download_pic (fun _ => false) (fun _ => true) (Tracker.empty.set "t" (0, 1))
      (toDownloadDataEntry (⟨"u".data, "f".data, [], some 0⟩ : DownloadEntry Nat))
      "t").outcome = .done ∧
    (download_pic (fun _ => false) (fun _ => true) (Tracker.empty.set "t" (0, 1))
      (toDownloadDataEntry (⟨"u".data, "f".data, [], some 0⟩ : DownloadEntry Nat))
      "t").fetches = 1 := by
  exact ⟨rfl, by decide, by decide⟩

/-- C8 amended: the download pipeline never invokes `post_process` in any
case — success, skip-because-exists, or failure. The conversion to
`DownloadDataEntry` performed by every caller drops the field, so the
entire observable behaviour of the per-entry worker is independent of the
`post_process` value (and of the per-entry `headers` the conversion also
drops); the never-on-skip and never-on-failure halves of the claim hold
vacuously, the exactly-once-on-success half does not hold. -/
theorem c8_pipeline_independent_of_post_process {π : Type}
    (e : DownloadEntry π) (pp : Option π) (disk : Disk)
    (fetchOk : List Char → Bool) (tr : Tracker) (tag : Tag) :
    toDownloadDataEntry { e with post_process := pp } = toDownloadDataEntry e ∧
    download_pic disk fetchOk tr (toDownloadDataEntry { e with post_process := pp }) tag
      = download_pic disk fetchOk tr (toDownloadDataEntry e) tag :=
  ⟨rfl, rfl⟩

/-- C9 counterexample: `RateLimiter._get_domain` returns
`urlparse(url).netloc`, which does not include the scheme: two URLs that
differ in scheme but agree on host are keyed to the SAME rate-limit
state, refuting the claim that URLs differing in scheme use distinct
limiter states. -/
theorem c9_scheme_not_in_key :
    RateLimiter._get_domain "http://example.com/a".data
      = RateLimiter._get_domain "https://example.com/b".data ∧
    RateLimiter._get_domain "http://example.com/a".data = "example.com".data := by
  decide

theorem takeWhile_append_stop (p : Char → Bool) (l : List Char) :
    ∀ (c : Char) (r : List Char), (∀ x ∈ l, p x = true) → p c = false →
      (l ++ c :: r).takeWhile p = l := by
  induction l with
  | nil => intro c r _ hc; simp [List.takeWhile_cons, hc]
  | cons a l ih =>
    intro c r hl hc
    have ha : p a = true := hl a (List.mem_cons_self a l)
    simp only [List.cons_append, List.takeWhile_cons, ha, if_true]
    rw [ih c r (fun x hx => hl x (List.mem_cons_of_mem a hx)) hc]

theorem afterDoubleSlash_skip (s : List Char) :
    ∀ r : List Char, '/' ∉ s →
      afterDoubleSlash (s ++ '/' :: '/' :: r) = some r := by
  induction s with
  | nil => intro r _; simp [afterDoubleSlash]
  | cons a s ih =>
    intro r hs
    have ha : a ≠ '/' := fun h => hs (h ▸ List.mem_cons_self a s)
    have hs2 : '/' ∉ s := fun h => hs (List.mem_cons_of_mem a h)
    cases s with
    | nil =>
      simp only [List.nil_append, List.cons_append]
      rw [afterDoubleSlash]
      simp [ha, afterDoubleSlash]
    | cons b s2 =>
      simp only [List.cons_append]
      rw [afterDoubleSlash]
      simp only [ha, false_and, if_false]
      exact ih r hs2

/-- C9 amended: rate-limit state is keyed by the netloc (host) component
of the URL alone, the scheme excluded: for any absolute URL
`scheme://host/path` whose scheme has no '/' and whose host has no '/',
'?' or '#', `RateLimiter._get_domain` returns exactly the host, so two
URLs agreeing on host share one limiter key whatever their schemes, and
two URLs with different hosts use distinct keys. -/
theorem c9_domain_is_netloc (s1 s2 host1 host2 p1 p2 : List Char)
    (hs1 : '/' ∉ s1) (hs2 : '/' ∉ s2)
    (hh1 : ∀ c ∈ host1, c ≠ '/' ∧ c ≠ '?' ∧ c ≠ '#')
    (hh2 : ∀ c ∈ host2, c ≠ '/' ∧ c ≠ '?' ∧ c ≠ '#') :
    RateLimiter._get_domain (absUrl s1 host1 p1) = host1 ∧
    RateLimiter._get_domain (absUrl s2 host2 p2) = host2 ∧
    (host1 = host2 → RateLimiter._get_domain (absUrl s1 host1 p1)
      = RateLimiter._get_domain (absUrl s2 host2 p2)) ∧
    (host1 ≠ host2 → RateLimiter._get_domain (absUrl s1 host1 p1)
      ≠ RateLimiter._get_domain (absUrl s2 host2 p2)) := by
  have main : ∀ (s host p : List Char), '/' ∉ s →
      (∀ c ∈ host, c ≠ '/' ∧ c ≠ '?' ∧ c ≠ '#') →
      RateLimiter._get_domain (absUrl s host p) = host := by
    intro s host p hs hh
    have hre : absUrl s host p = (s ++ [':']) ++ '/' :: '/' :: (host ++ '/' :: p) := by
      simp [absUrl]
    have hnos : '/' ∉ s ++ [':'] := by
      intro hmem
      rcases List.mem_append.1 hmem with h | h
      · exact hs h
      · simp at h
    rw [RateLimiter._get_domain, hre, afterDoubleSlash_skip _ _ hnos]
    exact takeWhile_append_stop _ host '/' p
      (fun x hx => by simp [hh x hx]) (by simp)
  refine ⟨main s1 host1 p1 hs1 hh1, main s2 host2 p2 hs2 hh2, ?_, ?_⟩
  · intro he
    rw [main s1 host1 p1 hs1 hh1, main s2 host2 p2 hs2 hh2, he]
  · intro hne
    rw [main s1 host1 p1 hs1 hh1, main s2 host2 p2 hs2 hh2]
    exact hne

theorem c9_domain_is_netloc_witness :
    RateLimiter._get_domain (absUrl "http".data "example.com".data "a".data)
      = "example.com".data ∧
    RateLimiter._get_domain (absUrl "https".data "example.org".data "b".data)
      = "example.org".data := by
  have h := c9_domain_is_netloc "http".data "https".data "example.com".data
    "example.org".data "a".data "b".data (by decide) (by decide) (by decide) (by decide)
  exact ⟨h.1, h.2.1⟩

/-- C10: `DownloadDataEntry.__init__` stores `url` unchanged in every
case; when `file_path` is supplied it is stored unchanged; when it is
absent the stored `file_path` is `url.rsplit("/", 1)[-1]`, the substring
of the url after its last '/': the whole url when it contains no '/'
(fourth conjunct), and, for any decomposition `a ++ "/" ++ b` with `b`
slash-free — `b` is then exactly the substring after the last '/', and is
empty when the url ends in '/' — the stored path is `b` (fifth
conjunct). -/
theorem c10_entry_init (url fp a b : List Char) :
    (DownloadDataEntry.init url (some fp)).url = url ∧
    (DownloadDataEntry.init url (some fp)).file_path = fp ∧
    (DownloadDataEntry.init url none).url = url ∧
    ('/' ∉ url → (DownloadDataEntry.init url none).file_path = url) ∧
    ('/' ∉ b → (DownloadDataEntry.init (a ++ '/' :: b) none).file_path = b) := by
  refine ⟨rfl, rfl, rfl, ?_, ?_⟩
  · intro hurl
    show rsplitTail url = url
    rw [rsplitTail, List.takeWhile_eq_self_iff.2 ?_, List.reverse_reverse]
    intro x hx
    have : x ≠ '/' := fun h => hurl (h ▸ (List.mem_reverse.1 hx))
    simp [this]
  · intro hb
    show rsplitTail (a ++ '/' :: b) = b
    have hrev : (a ++ '/' :: b).reverse = b.reverse ++ '/' :: a.reverse := by
      simp
    rw [rsplitTail, hrev, takeWhile_append_stop _ b.reverse '/' a.reverse ?_ (by simp),
      List.reverse_reverse]
    intro x hx
    have : x ≠ '/' := fun h => hb (h ▸ (List.mem_reverse.1 hx))
    simp [this]

theorem c10_entry_init_witness :
    (DownloadDataEntry.init "http://h/x/y.png".data (some "z.png".data)).file_path
      = "z.png".data ∧
    (DownloadDataEntry.init ("http://h/x/".data ++ '/' :: "y.png".data) none).file_path
      = "y.png".data := by
  have h := c10_entry_init "http://h/x/y.png".data "z.png".data
    "http://h/x/".data "y.png".data
  exact ⟨h.2.1, h.2.2.2.2 (by decide)⟩

end Anime
